import Mathlib

/-!
Verification of the appointment-booking backend (`app.py`) of the
Backend_danilo repository.

The file shallowly embeds the Python source: JSON values become the
inductive `JVal`, appointment dicts become the structure `Appt` whose
fields are `Option JVal` (`none` = key absent, `some .null` = key
present with JSON null), and each Flask handler becomes a pure Lean
function over the loaded collection that returns an outcome describing
the HTTP response and, on success, the collection that is saved back to
disk.  Python truthiness, `dict.get`, `str.strip`, `str.isdigit` and
`datetime.fromisoformat` are modelled explicitly below.
-/

set_option maxRecDepth 8000

namespace Danilo

/-- A JSON value as it occurs in the appointment store: null, a string,
or an integer.  These are the only value shapes the handlers inspect. -/
inductive JVal where
  | null : JVal
  | s : String → JVal
  | n : Int → JVal
deriving DecidableEq, Repr

/-- Python truthiness of a JSON value: `None`, `""` and `0` are falsy. -/
def truthyJ : JVal → Bool
  | .null => false
  | .s t => decide (t ≠ "")
  | .n k => decide (k ≠ 0)

/-- `dict.get(key)`: an absent key reads as Python `None`. -/
def pyGet (v : Option JVal) : JVal := v.getD .null

/-- Truthiness of a `dict.get(key)` result. -/
def truthy (v : Option JVal) : Bool := truthyJ (pyGet v)

/-- Python `str()` rendering of a JSON value. -/
def pyStr : JVal → String
  | .null => "None"
  | .s t => t
  | .n k => toString k

/-- `s.startswith(pat)` on character lists. -/
def startsWithL : List Char → List Char → Bool
  | _, [] => true
  | [], _ :: _ => false
  | c :: cs, p :: ps => decide (c = p) && startsWithL cs ps

/-- Python whitespace characters removed by `str.strip()`. -/
def pyIsSpace (c : Char) : Bool :=
  decide (c = ' ') || decide (c = '\t') || decide (c = '\n') || decide (c = '\r') ||
  decide (c = '\x0b') || decide (c = '\x0c')

/-- Python `str.strip()`: drop leading and trailing whitespace. -/
def pyStrip (t : String) : String :=
  ⟨((t.data.dropWhile pyIsSpace).reverse.dropWhile pyIsSpace).reverse⟩

/-! ## Dates (`datetime.fromisoformat(...).date()`) -/

/-- Calendar date, the result of `datetime.date()`. -/
structure SimpleDate where
  year : Nat
  month : Nat
  day : Nat
deriving DecidableEq, Repr

def isDig (c : Char) : Bool := c.isDigit

def twoDig (a b : Char) : Nat := (a.toNat - 48) * 10 + (b.toNat - 48)

def isLeap (y : Nat) : Bool :=
  (decide (y % 4 = 0) && decide (y % 100 ≠ 0)) || decide (y % 400 = 0)

def daysInMonth (y m : Nat) : Nat :=
  if m = 2 then (if isLeap y then 29 else 28)
  else if m = 4 ∨ m = 6 ∨ m = 9 ∨ m = 11 then 30
  else 31

/-- Fractional seconds: exactly 3 or 6 digits. -/
def validFrac (cs : List Char) : Bool :=
  (decide (cs.length = 3) || decide (cs.length = 6)) && cs.all isDig

def validSecondsTail : List Char → Bool
  | [] => true
  | '.' :: frac => validFrac frac
  | _ => false

/-- Accepted time component `HH[:MM[:SS[.fff[fff]]]]`. -/
def validTimeCore : List Char → Bool
  | [a, b] => isDig a && isDig b && decide (twoDig a b < 24)
  | a :: b :: ':' :: c :: d :: rest =>
      isDig a && isDig b && decide (twoDig a b < 24) &&
      isDig c && isDig d && decide (twoDig c d < 60) &&
      (match rest with
       | [] => true
       | ':' :: e :: f :: rest2 =>
           isDig e && isDig f && decide (twoDig e f < 60) && validSecondsTail rest2
       | _ => false)
  | _ => false

/-- Split a time string at the first `+`/`-` (UTC-offset marker). -/
def splitSign : List Char → List Char × Option (List Char)
  | [] => ([], none)
  | c :: rest =>
    if decide (c = '+') || decide (c = '-') then ([], some rest)
    else
      let (pre, off) := splitSign rest
      (c :: pre, off)

/-- Accepted UTC offset `HH:MM[:SS[.fff[fff]]]` after the sign. -/
def validOffset : List Char → Bool
  | a :: b :: ':' :: c :: d :: rest =>
      isDig a && isDig b && decide (twoDig a b < 24) &&
      isDig c && isDig d && decide (twoDig c d < 60) &&
      (match rest with
       | [] => true
       | ':' :: e :: f :: rest2 =>
           isDig e && isDig f && decide (twoDig e f < 60) && validSecondsTail rest2
       | _ => false)
  | _ => false

def validTimePart (cs : List Char) : Bool :=
  let (core, off) := splitSign cs
  validTimeCore core &&
  (match off with
   | none => true
   | some ocs => validOffset ocs)

/-- Models Python's `datetime.fromisoformat(s).date()` (accepted grammar
of CPython before 3.11): `YYYY-MM-DD`, optionally followed by a one-char
separator and a time component with optional fraction and UTC offset.
Returns only the date part, as every call site immediately applies
`.date()`. -/
def fromisoformat_dt (str : String) : Option SimpleDate :=
  match str.data with
  | y1 :: y2 :: y3 :: y4 :: '-' :: m1 :: m2 :: '-' :: d1 :: d2 :: rest =>
    if isDig y1 && isDig y2 && isDig y3 && isDig y4 &&
       isDig m1 && isDig m2 && isDig d1 && isDig d2 then
      let y := twoDig y1 y2 * 100 + twoDig y3 y4
      let m := twoDig m1 m2
      let d := twoDig d1 d2
      if decide (1 ≤ y) && decide (1 ≤ m) && decide (m ≤ 12) &&
         decide (1 ≤ d) && decide (d ≤ daysInMonth y m) then
        match rest with
        | [] => some ⟨y, m, d⟩
        | _sep :: timecs => if validTimePart timecs then some ⟨y, m, d⟩ else none
      else none
    else none
  | _ => none

/-- `value.replace("Z", "")`: with a one-character pattern and empty
replacement this deletes every `Z`. -/
def stripZ (t : String) : String := ⟨t.data.filter (fun c => decide (c ≠ 'Z'))⟩

/-- `parse_date_only` from the source: falsy input gives `None`; a
string is parsed after deleting `Z`; any other value raises inside the
`try` block, and the bare `except` turns that into `None` as well. -/
def parse_date_only (value : Option JVal) : Option SimpleDate :=
  if truthy value then
    match pyGet value with
    | .s t => fromisoformat_dt (stripZ t)
    | _ => none
  else none

/-- Python `date` comparison `a < b`: lexicographic on (year, month, day). -/
def dateLt (a b : SimpleDate) : Bool :=
  decide (a.year < b.year) ||
  (decide (a.year = b.year) &&
    (decide (a.month < b.month) ||
      (decide (a.month = b.month) && decide (a.day < b.day))))

/-! ## Phone normalization (`normalize_phone`) -/

/-- `"".join(ch for ch in str(raw) if ch.isdigit())`. -/
def phoneDigits (raw : JVal) : List Char := (pyStr raw).data.filter isDig

/-- `if digits.startswith("00"): digits = digits[2:]`. -/
def drop00 (digits : List Char) : List Char :=
  if startsWithL digits ['0', '0'] then digits.drop 2 else digits

/-- `if digits.startswith("0") and len(digits) >= 10: digits = digits[1:]`. -/
def dropLeading0 (digits : List Char) : List Char :=
  if startsWithL digits ['0'] && decide (10 ≤ digits.length) then digits.drop 1 else digits

/-- `normalize_phone(raw, default_country="54")` from the source.  A
falsy argument gives `None`; otherwise only the digits of `str(raw)`
are kept, a leading `00` is dropped, a string already starting with the
country code is returned unchanged, a leading `0` of a number of at
least 10 digits is dropped, and the country code is prepended.  Every
call site uses the default country code `"54"`. -/
def normalize_phone (raw : JVal) (default_country : String) : Option String :=
  if truthyJ raw = false then none
  else if phoneDigits raw = [] then none
  else if startsWithL (drop00 (phoneDigits raw)) default_country.data then
    some ⟨drop00 (phoneDigits raw)⟩
  else some ⟨default_country.data ++ dropLeading0 (drop00 (phoneDigits raw))⟩

/-! ## Appointment records -/

/-- An appointment dict.  Each field is `none` when the key is absent
from the dict and `some v` when the key is present with JSON value `v`
(`some .null` = present with null).  `date` is the legacy date field the
handlers fall back to when `dateISO` is falsy. -/
structure Appt where
  id : Option JVal := none
  serviceId : Option JVal := none
  stylistId : Option JVal := none
  serviceName : Option JVal := none
  stylistName : Option JVal := none
  dateISO : Option JVal := none
  date : Option JVal := none
  time : Option JVal := none
  clientName : Option JVal := none
  clientContact : Option JVal := none
  clientContactNormalized : Option JVal := none
  price : Option JVal := none
  status : Option JVal := none
deriving DecidableEq, Repr

/-- `all(field in data for field in required_fields)`: the ten required
keys are present (their values may be anything, including null). -/
def requiredOk (d : Appt) : Bool :=
  d.id.isSome && d.serviceId.isSome && d.stylistId.isSome && d.serviceName.isSome &&
  d.stylistName.isSome && d.dateISO.isSome && d.time.isSome &&
  d.clientName.isSome && d.clientContact.isSome && d.price.isSome

/-- `(data.get("clientContact") or "").strip()`.  A truthy non-string
value would raise `AttributeError` in the source (an unhandled 500);
the model totalizes that case via the `str()` rendering. -/
def pyStripContact (v : Option JVal) : String :=
  if truthy v then
    match pyGet v with
    | .s t => pyStrip t
    | w => pyStr w
  else ""

def optStrToJVal : Option String → JVal
  | none => .null
  | some t => .s t

/-- `data["clientContactNormalized"] = normalize_phone(raw_contact)`:
the key is always written, with null when normalization yields nothing. -/
def withNormalizedContact (data : Appt) : Appt :=
  let v := optStrToJVal (normalize_phone (.s (pyStripContact data.clientContact)) "54")
  { data with clientContactNormalized := some v }

/-- `appt.get("dateISO") or appt.get("date")`. -/
def effectiveDateStr (dISO dLegacy : Option JVal) : Option JVal :=
  if truthy dISO then dISO else dLegacy

/-- `appt.get("status", "pendiente")`: the default applies only when the
key is absent; a present null is returned as is. -/
def statusOrPendiente (a : Appt) : JVal := a.status.getD (.s "pendiente")

/-- One record of the slot-capacity scan: the record is skipped when its
effective date does not parse or its time is falsy, and counted when its
parsed day and time equal the candidate's and its status (defaulted to
`"pendiente"`) is not `"cancelado"`. -/
def sameSlotActive (nd : SimpleDate) (nt : JVal) (a : Appt) : Bool :=
  match parse_date_only (effectiveDateStr a.dateISO a.date) with
  | none => false
  | some ad =>
    truthy a.time && decide (ad = nd) && decide (pyGet a.time = nt) &&
    decide (statusOrPendiente a ≠ .s "cancelado")

/-- Outcome of `POST /api/appointments`: HTTP 400 "Datos incompletos",
HTTP 400 "Ya hay 2 turnos agendados para esa fecha y hora.", or HTTP 201
carrying the stored record and the collection written back to disk. -/
inductive PostOutcome where
  | missingFields : PostOutcome
  | slotFull : PostOutcome
  | ok : Appt → List Appt → PostOutcome
deriving DecidableEq, Repr

/-- `if "status" not in data: data["status"] = "pendiente"` (append path
only). -/
def statusDefaulted (d : Appt) : Appt :=
  if d.status = none then { d with status := some (.s "pendiente") } else d

/-- Lines 192–203 of the source: find the first record with the same id;
replace it in place, or default the status and append. -/
def storeAppointment (appointments : List Appt) (d : Appt) : Appt × List Appt :=
  match appointments.findIdx? (fun a => decide (pyGet a.id = pyGet d.id)) with
  | some i => (d, appointments.set i d)
  | none => (statusDefaulted d, appointments ++ [statusDefaulted d])

/-- The `POST /api/appointments` handler: required-field check, phone
normalization, slot-capacity check (only when the effective date parses
and the time is truthy), then upsert by id. -/
def postAppointment (appointments : List Appt) (data : Appt) : PostOutcome :=
  if requiredOk data = false then .missingFields
  else
    match parse_date_only (effectiveDateStr (withNormalizedContact data).dateISO
        (withNormalizedContact data).date) with
    | some nd =>
      if truthy (withNormalizedContact data).time = true ∧
         2 ≤ appointments.countP (sameSlotActive nd (pyGet (withNormalizedContact data).time)) then
        .slotFull
      else
        .ok (storeAppointment appointments (withNormalizedContact data)).1
           (storeAppointment appointments (withNormalizedContact data)).2
    | none =>
      .ok (storeAppointment appointments (withNormalizedContact data)).1
         (storeAppointment appointments (withNormalizedContact data)).2

/-- The collection on disk after a POST: only the success path saves. -/
def postCollection (appointments : List Appt) (data : Appt) : List Appt :=
  match postAppointment appointments data with
  | .ok _ c => c
  | _ => appointments

def postIsOk : PostOutcome → Bool
  | .ok _ _ => true
  | _ => false

/-- Outcome of `PATCH /api/appointments/<id>`: 404, 400 "Estado
inválido", or the updated record and saved collection. -/
inductive PatchOutcome where
  | notFound : PatchOutcome
  | badStatus : PatchOutcome
  | ok : Appt → List Appt → PatchOutcome
deriving DecidableEq, Repr

/-- The `PATCH /api/appointments/<id>` handler (status update only). -/
def update_appointment (appointments : List Appt) (appt_id : JVal)
    (statusVal : Option JVal) : PatchOutcome :=
  match appointments.findIdx? (fun a => decide (pyGet a.id = appt_id)) with
  | none => .notFound
  | some i =>
    match appointments[i]? with
    | none => .notFound
    | some a =>
      if statusVal = some (.s "pendiente") ∨ statusVal = some (.s "confirmado") ∨
         statusVal = some (.s "cancelado") then
        .ok { a with status := statusVal } (appointments.set i { a with status := statusVal })
      else .badStatus

/-! ## Cleanup (`POST /api/appointments/cleanup`) -/

/-- Outcome of the cleanup endpoint: 400 "Campo 'before' requerido",
400 "Formato de fecha inválido", or the removed/kept counts and the
kept collection saved back. -/
inductive CleanupOutcome where
  | missingBefore : CleanupOutcome
  | badDate : CleanupOutcome
  | ok : Nat → Nat → List Appt → CleanupOutcome
deriving DecidableEq, Repr

/-- A record goes to the `removed` list exactly when its effective date
parses and is strictly before the cutoff. -/
def cleanupRemoves (limit : SimpleDate) (a : Appt) : Bool :=
  match parse_date_only (effectiveDateStr a.dateISO a.date) with
  | none => false
  | some d => dateLt d limit

/-- The cleanup handler.  The body field `before` is modelled as an
optional string (a non-string truthy value would raise an unhandled
`TypeError` in the source and is outside the model). -/
def cleanup_appointments (appointments : List Appt) (before : Option String) :
    CleanupOutcome :=
  match before with
  | none => .missingBefore
  | some b =>
    if b = "" then .missingBefore
    else
      match fromisoformat_dt b with
      | none => .badDate
      | some limit =>
        .ok (appointments.filter (cleanupRemoves limit)).length
           (appointments.filter (fun a => !cleanupRemoves limit a)).length
           (appointments.filter (fun a => !cleanupRemoves limit a))

/-- The collection on disk after cleanup: errors save nothing. -/
def cleanupCollection (appointments : List Appt) (before : Option String) : List Appt :=
  match cleanup_appointments appointments before with
  | .ok _ _ c => c
  | _ => appointments

/-! ## Reminder dispatch (`POST /api/reminders/whatsapp`) -/

/-- Tallies and attempted sends accumulated by the dispatch loop.  The
`sends` list records each `(phone, message)` pair passed to the external
send capability, in order. -/
structure RemState where
  sent : Nat
  skipped_no_phone : Nat
  skipped_status : Nat
  sends : List (String × String)
deriving DecidableEq, Repr

/-- `appt.get("clientContactNormalized") or normalize_phone(appt.get("clientContact"))`. -/
def resolvePhone (a : Appt) : Option String :=
  if truthy a.clientContactNormalized then some (pyStr (pyGet a.clientContactNormalized))
  else normalize_phone (pyGet a.clientContact) "54"

/-- Truthiness of the resolved phone (`if not phone_norm`). -/
def truthyStrOpt : Option String → Bool
  | none => false
  | some t => decide (t ≠ "")

/-- `appt.get(key) or default` rendered into the message f-string. -/
def pyOrStr (v : Option JVal) (dflt : String) : String :=
  if truthy v then pyStr (pyGet v) else dflt

/-- The reminder message template. -/
def reminderMessage (a : Appt) : String :=
  "Hola " ++ pyOrStr a.clientName "cliente" ++
  ", te recordamos tu turno hoy a las " ++ pyOrStr a.time "" ++
  " en Dandelo Peluquería para " ++ pyOrStr a.serviceName "tu servicio" ++
  ". Si no podés asistir, por favor avisá respondiendo este mensaje. 🤘💈"

/-- One iteration of the dispatch loop.  `oracle` is the external
WhatsApp send capability (`send_whatsapp_message`): it receives the
normalized phone and the message and reports acceptance. -/
def reminderStep (oracle : String → String → Bool) (target : SimpleDate)
    (only_confirmed : Bool) (st : RemState) (a : Appt) : RemState :=
  if parse_date_only (effectiveDateStr a.dateISO a.date) ≠ some target then st
  else if statusOrPendiente a = .s "cancelado" then
    { st with skipped_status := st.skipped_status + 1 }
  else if only_confirmed = true ∧ statusOrPendiente a ≠ .s "confirmado" then
    { st with skipped_status := st.skipped_status + 1 }
  else if truthyStrOpt (resolvePhone a) = false then
    { st with skipped_no_phone := st.skipped_no_phone + 1 }
  else if oracle ((resolvePhone a).getD "") (reminderMessage a) then
    { st with sends := st.sends ++ [((resolvePhone a).getD "", reminderMessage a)],
              sent := st.sent + 1 }
  else
    { st with sends := st.sends ++ [((resolvePhone a).getD "", reminderMessage a)] }

/-- The dispatch loop over the whole collection. -/
def runReminders (oracle : String → String → Bool) (target : SimpleDate)
    (only_confirmed : Bool) (appointments : List Appt) : RemState :=
  appointments.foldl (reminderStep oracle target only_confirmed) ⟨0, 0, 0, []⟩

/-- The JSON body of the reminders response. -/
structure RemResult where
  date : SimpleDate
  sent : Nat
  skipped_no_phone : Nat
  skipped_status : Nat
  total : Nat
deriving DecidableEq, Repr

/-- Outcome of the reminders endpoint: 400 on a bad date string, or the
response plus the list of attempted sends. -/
inductive RemOutcome where
  | badDate : RemOutcome
  | ok : RemResult → List (String × String) → RemOutcome
deriving DecidableEq, Repr

/-- The dispatch loop plus the JSON response assembled from its tallies;
the `total` field is `len(appointments)`. -/
def remRespond (oracle : String → String → Bool) (target : SimpleDate)
    (only_confirmed : Bool) (appointments : List Appt) : RemOutcome :=
  .ok ⟨target, (runReminders oracle target only_confirmed appointments).sent,
      (runReminders oracle target only_confirmed appointments).skipped_no_phone,
      (runReminders oracle target only_confirmed appointments).skipped_status,
      appointments.length⟩
    (runReminders oracle target only_confirmed appointments).sends

/-- The `POST /api/reminders/whatsapp` handler.  `today` stands for
`datetime.utcnow().date()`; the body's `date` is modelled as an optional
string and `only_confirmed` as the boolean it is coerced to.  A truthy
date string must parse or the endpoint fails with 400. -/
def whatsapp_reminders (oracle : String → String → Bool) (today : SimpleDate)
    (appointments : List Appt) (date_str : Option String) (only_confirmed : Bool) :
    RemOutcome :=
  match date_str with
  | some t =>
    if t ≠ "" then
      match fromisoformat_dt t with
      | none => .badDate
      | some target => remRespond oracle target only_confirmed appointments
    else remRespond oracle today only_confirmed appointments
  | none => remRespond oracle today only_confirmed appointments

/-- The `total` field of the response, when the endpoint succeeds. -/
def remTotal : RemOutcome → Option Nat
  | .badDate => none
  | .ok r _ => some r.total

/-! ## Specification-side predicates

These restate the spec's language about individual records; the claim
theorems relate the handler functions to them. -/

/-- The record's parsed date equals the target date. -/
def remDateMatch (target : SimpleDate) (a : Appt) : Bool :=
  decide (parse_date_only (effectiveDateStr a.dateISO a.date) = some target)

/-- The record is skipped by status: cancelled, or not confirmed while
`only_confirmed` is set. -/
def remStatusSkipped (only_confirmed : Bool) (a : Appt) : Bool :=
  decide (statusOrPendiente a = .s "cancelado") ||
  (only_confirmed && decide (statusOrPendiente a ≠ .s "confirmado"))

/-- No phone number can be resolved for the record. -/
def remPhoneMissing (a : Appt) : Bool := !truthyStrOpt (resolvePhone a)

/-- A send is attempted for the record: date matches, not skipped by
status, and a phone resolves. -/
def remAttempted (target : SimpleDate) (only_confirmed : Bool) (a : Appt) : Bool :=
  remDateMatch target a && !remStatusSkipped only_confirmed a && !remPhoneMissing a

/-- The record occupies the slot `(d, t)` and is not cancelled: its
parsed date is `d`, its time value is `t`, and its status (defaulted to
pending) is not `"cancelado"`. -/
def claimSlotTaken (d : SimpleDate) (t : JVal) (a : Appt) : Bool :=
  remDateMatch d a && decide (pyGet a.time = t) &&
  decide (statusOrPendiente a ≠ .s "cancelado")

/-- The record's status key holds one of the three enumerated values. -/
def statusEnumOk (a : Appt) : Bool :=
  decide (a.status = some (.s "pendiente")) || decide (a.status = some (.s "confirmado")) ||
  decide (a.status = some (.s "cancelado"))

/-- On a successful POST, whether the stored record's status is one of
the three enumerated values (vacuously true on error outcomes). -/
def storedStatusEnum : PostOutcome → Bool
  | .ok st _ => statusEnumOk st
  | _ => true

/-! ## Concrete records used by the closed parts of the theorems -/

/-- A stored booking occupying the slot (2025-12-04, "14:00"). -/
def slotRecA : Appt :=
  { id := some (.n 1), dateISO := some (.s "2025-12-04"), time := some (.s "14:00") }

/-- A second booking in the same slot, with a date-time `dateISO`. -/
def slotRecB : Appt :=
  { id := some (.n 2), dateISO := some (.s "2025-12-04T14:00:00.000Z"),
    time := some (.s "14:00") }

/-- `slotRecA` after `PATCH` sets its status to `"cancelado"`. -/
def slotRecACancelled : Appt := { slotRecA with status := some (.s "cancelado") }

/-- A complete booking request for the same slot (fresh id 3). -/
def candThird : Appt :=
  { id := some (.n 3), serviceId := some (.n 1), stylistId := some (.n 1),
    serviceName := some (.s "Corte Caballero"), stylistName := some (.s "Danilo Dandelo"),
    dateISO := some (.s "2025-12-04"), time := some (.s "14:00"),
    clientName := some (.s "Ana"), clientContact := some (.s "1159121384"),
    price := some (.n 15000) }

/-- A complete request whose status is present but not one of the three
enumerated values. -/
def unrecognizedStatusReq : Appt := { candThird with id := some (.n 7), status := some (.s "tal vez") }

/-- The record the handler stores for `unrecognizedStatusReq`. -/
def unrecStored : Appt :=
  { unrecognizedStatusReq with clientContactNormalized := some (.s "541159121384") }

/-- A complete request with an unparsable (empty) `dateISO` but a
parsable legacy `date` field, aimed at a full slot. -/
def legacyDateReq : Appt :=
  { candThird with id := some (.n 9), dateISO := some (.s ""), date := some (.s "2025-12-04") }

/-- A complete request whose effective date string cannot be parsed. -/
def unparsableDateReq : Appt := { candThird with id := some (.n 10), dateISO := some (.s "banana") }

/-- A stored booking on a different day. -/
def offDayRec : Appt := { id := some (.n 2), dateISO := some (.s "2025-01-02") }

/-- A record dated before the cleanup cutoff 2025-11-01. -/
def oldRec : Appt := { id := some (.n 1), dateISO := some (.s "2025-10-15") }

/-- A record dated exactly on the cleanup cutoff. -/
def onCutoffRec : Appt := { id := some (.n 2), dateISO := some (.s "2025-11-01") }

/-- A record whose date cannot be parsed. -/
def badDateRec : Appt := { id := some (.n 3), dateISO := some (.s "banana") }

/-! ## Supporting lemmas -/

theorem string_mk_data (s : String) : String.mk s.data = s := by cases s; rfl

theorem withNormalizedContact_id (d : Appt) : (withNormalizedContact d).id = d.id := rfl

theorem withNormalizedContact_dateISO (d : Appt) :
    (withNormalizedContact d).dateISO = d.dateISO := rfl

theorem withNormalizedContact_date (d : Appt) : (withNormalizedContact d).date = d.date := rfl

theorem withNormalizedContact_time (d : Appt) : (withNormalizedContact d).time = d.time := rfl

theorem withNormalizedContact_status (d : Appt) :
    (withNormalizedContact d).status = d.status := rfl

/-- A value whose `parse_date_only` succeeds is truthy. -/
theorem parse_truthy {v : Option JVal} {d : SimpleDate}
    (h : parse_date_only v = some d) : truthy v = true := by
  by_cases ht : truthy v = true
  · exact ht
  · rw [parse_date_only, if_neg ht] at h
    exact Option.noConfusion h

theorem all_isDig_drop {l : List Char} (n : Nat) (h : l.all isDig = true) :
    (l.drop n).all isDig = true := by
  rw [List.all_eq_true] at h ⊢
  exact fun x hx => h x (List.mem_of_mem_drop hx)

theorem all_isDig_filter (l : List Char) : (l.filter isDig).all isDig = true := by
  rw [List.all_eq_true]
  exact fun x hx => (List.mem_filter.mp hx).2

theorem startsWithL_two {s : List Char} {a b : Char} (h : startsWithL s [a, b] = true) :
    ∃ tl, s = a :: b :: tl := by
  match s with
  | [] => simp [startsWithL] at h
  | [c] => simp [startsWithL] at h
  | c :: e :: tl =>
    simp only [startsWithL, Bool.and_eq_true, decide_eq_true_eq] at h
    exact ⟨tl, by rw [h.1, h.2.1]⟩

/-- Any phone produced by `normalize_phone` with country code `"54"`
consists of digits and starts with `54`. -/
theorem normalize_phone_54_shape {raw : JVal} {p : String}
    (h : normalize_phone raw "54" = some p) :
    ∃ tl, p.data = '5' :: '4' :: tl ∧ tl.all isDig = true := by
  have hall0 : (phoneDigits raw).all isDig = true := all_isDig_filter _
  have hall1 : (drop00 (phoneDigits raw)).all isDig = true := by
    unfold drop00; split
    · exact all_isDig_drop 2 hall0
    · exact hall0
  have hall2 : (dropLeading0 (drop00 (phoneDigits raw))).all isDig = true := by
    unfold dropLeading0; split
    · exact all_isDig_drop 1 hall1
    · exact hall1
  unfold normalize_phone at h
  split at h
  · exact Option.noConfusion h
  · split at h
    · exact Option.noConfusion h
    · split at h
      · rename_i hsw
        obtain ⟨tl, htl⟩ := startsWithL_two hsw
        injection h with h'
        refine ⟨tl, ?_, ?_⟩
        · rw [← h']; exact htl
        · rw [htl] at hall1
          simp only [List.all_cons, Bool.and_eq_true] at hall1
          exact hall1.2.2
      · injection h with h'
        refine ⟨dropLeading0 (drop00 (phoneDigits raw)), ?_, hall2⟩
        rw [← h']
        rfl

/-- Normalization is idempotent on its own output. -/
theorem normalize_phone_idem {raw : JVal} {p : String}
    (h : normalize_phone raw "54" = some p) :
    normalize_phone (.s p) "54" = some p := by
  obtain ⟨tl, hdata, hall⟩ := normalize_phone_54_shape h
  have hne : p ≠ "" := by
    intro he
    rw [he] at hdata
    exact List.noConfusion hdata
  have hfilter : p.data.filter isDig = p.data := by
    rw [List.filter_eq_self]
    intro x hx
    rw [hdata, List.mem_cons, List.mem_cons] at hx
    rcases hx with rfl | rfl | hx
    · decide
    · decide
    · exact (List.all_eq_true.mp hall) x hx
  have hpd : phoneDigits (.s p) = p.data := hfilter
  unfold normalize_phone
  rw [if_neg (by simp [truthyJ, hne])]
  rw [hpd]
  rw [if_neg (by rw [hdata]; exact fun hc => List.noConfusion hc)]
  have hd00 : drop00 p.data = p.data := by
    unfold drop00
    rw [if_neg (by rw [hdata]; simp [startsWithL])]
  rw [hd00]
  rw [if_pos (by rw [hdata]; simp [startsWithL])]

/-! ## Claim theorems -/

/-- C3 counterexample: the code maps `"1159121384"` to `"541159121384"`,
not to `"5491159121384"` as the claim states (the source has no special
`"11"` area-code rule and no `"549"` mobile prefix). -/
theorem C3_phone_examples_counterexample :
    normalize_phone (.s "1159121384") "54" = some "541159121384" ∧
    normalize_phone (.s "1159121384") "54" ≠ some "5491159121384" := by
  decide

/-- C3 amended: phone normalization maps `"1159121384"` to
`"541159121384"`, maps `"+5491159121384"` to `"5491159121384"`, and maps
the empty string to no result. -/
theorem C3_phone_examples_amended :
    normalize_phone (.s "1159121384") "54" = some "541159121384" ∧
    normalize_phone (.s "+5491159121384") "54" = some "5491159121384" ∧
    normalize_phone (.s "") "54" = none := by
  decide

/-- C8: phone normalization is idempotent: whenever it produces a
result, normalizing that result returns it unchanged; in particular
`"5491159121384"` normalizes to itself. -/
theorem C8_phone_idempotent :
    (∀ (raw : JVal) (p : String), normalize_phone raw "54" = some p →
      normalize_phone (.s p) "54" = some p) ∧
    normalize_phone (.s "5491159121384") "54" = some "5491159121384" :=
  ⟨fun _ _ h => normalize_phone_idem h, by decide⟩

theorem C8_phone_idempotent_witness :
    normalize_phone (.s "541159121384") "54" = some "541159121384" :=
  C8_phone_idempotent.1 (.s "1159121384") "541159121384" (by decide)

/-- C9: a booking request missing at least one of the ten required keys
fails with the "Datos incompletos" validation error and the stored
collection is unchanged. -/
theorem C9_missing_fields (appointments : List Appt) (data : Appt)
    (h : data.id = none ∨ data.serviceId = none ∨ data.stylistId = none ∨
         data.serviceName = none ∨ data.stylistName = none ∨ data.dateISO = none ∨
         data.time = none ∨ data.clientName = none ∨ data.clientContact = none ∨
         data.price = none) :
    postAppointment appointments data = .missingFields ∧
    postCollection appointments data = appointments := by
  have hr : requiredOk data = false := by
    rcases h with h | h | h | h | h | h | h | h | h | h <;> simp [requiredOk, h]
  constructor
  · unfold postAppointment
    rw [if_pos hr]
  · unfold postCollection postAppointment
    rw [if_pos hr]

theorem C9_missing_fields_witness :
    postAppointment [slotRecA] {} = .missingFields ∧
    postCollection [slotRecA] {} = [slotRecA] :=
  C9_missing_fields [slotRecA] {} (Or.inl rfl)

/-- When the candidate's time value is truthy, the scan predicate of the
capacity check agrees with the spec-side slot predicate. -/
theorem sameSlotActive_eq_claim (d : SimpleDate) (nt : JVal) (hnt : truthyJ nt = true)
    (a : Appt) : sameSlotActive d nt a = claimSlotTaken d nt a := by
  unfold sameSlotActive claimSlotTaken remDateMatch
  cases hp : parse_date_only (effectiveDateStr a.dateISO a.date) with
  | none => simp
  | some ad =>
    by_cases ht : pyGet a.time = nt
    · have htr : truthy a.time = true := by rw [truthy, ht]; exact hnt
      simp [htr, ht]
    · simp [ht]

/-- C1: with a complete request whose `dateISO` parses to day `d` and
whose time is truthy, if at least two existing records occupy the slot
`(d, time)` with a non-cancelled status, the POST fails with the
slot-full error and the stored collection is unchanged; and concretely,
with two pending bookings in a slot a third booking for it is rejected,
while after cancelling one of them via PATCH the third succeeds. -/
theorem C1_slot_capacity :
    (∀ (appointments : List Appt) (data : Appt) (d : SimpleDate),
      requiredOk data = true →
      parse_date_only data.dateISO = some d →
      truthy data.time = true →
      2 ≤ appointments.countP (claimSlotTaken d (pyGet data.time)) →
      postAppointment appointments data = .slotFull ∧
      postCollection appointments data = appointments) ∧
    postAppointment [slotRecA, slotRecB] candThird = .slotFull ∧
    update_appointment [slotRecA, slotRecB] (.n 1) (some (.s "cancelado")) =
      .ok slotRecACancelled [slotRecACancelled, slotRecB] ∧
    postIsOk (postAppointment [slotRecACancelled, slotRecB] candThird) = true := by
  refine ⟨?_, by decide, by decide, by decide⟩
  intro appts data d hreq hparse htime hcount
  have heff : effectiveDateStr (withNormalizedContact data).dateISO
      (withNormalizedContact data).date = data.dateISO := by
    rw [withNormalizedContact_dateISO, withNormalizedContact_date]
    unfold effectiveDateStr
    rw [if_pos (parse_truthy hparse)]
  have hcnt : appts.countP (sameSlotActive d (pyGet data.time)) =
      appts.countP (claimSlotTaken d (pyGet data.time)) :=
    List.countP_congr (fun x _ => by rw [sameSlotActive_eq_claim d (pyGet data.time) htime x])
  have hmain : postAppointment appts data = .slotFull := by
    unfold postAppointment
    rw [if_neg (by simp [hreq])]
    rw [heff, hparse]
    have hcond : truthy (withNormalizedContact data).time = true ∧
        2 ≤ appts.countP (sameSlotActive d (pyGet (withNormalizedContact data).time)) := by
      rw [withNormalizedContact_time]
      exact ⟨htime, by rw [hcnt]; exact hcount⟩
    exact if_pos hcond
  exact ⟨hmain, by unfold postCollection; rw [hmain]⟩

theorem C1_slot_capacity_witness :
    postAppointment [slotRecA, slotRecB] candThird = .slotFull ∧
    postCollection [slotRecA, slotRecB] candThird = [slotRecA, slotRecB] :=
  C1_slot_capacity.1 [slotRecA, slotRecB] candThird ⟨2025, 12, 4⟩ (by decide) (by decide)
    (by decide) (by decide)

theorem storeAppointment_replace {appts : List Appt} {d : Appt} {i : Nat}
    (h : appts.findIdx? (fun a => decide (pyGet a.id = pyGet d.id)) = some i) :
    storeAppointment appts d = (d, appts.set i d) := by
  unfold storeAppointment
  rw [h]

theorem storeAppointment_append {appts : List Appt} {d : Appt}
    (h : appts.findIdx? (fun a => decide (pyGet a.id = pyGet d.id)) = none) :
    storeAppointment appts d = (statusDefaulted d, appts ++ [statusDefaulted d]) := by
  unfold storeAppointment
  rw [h]

/-- A successful POST stores exactly what the upsert step produced. -/
theorem postAppointment_ok_store {appts : List Appt} {data stored : Appt} {coll : List Appt}
    (h : postAppointment appts data = .ok stored coll) :
    storeAppointment appts (withNormalizedContact data) = (stored, coll) := by
  unfold postAppointment at h
  split at h
  · exact PostOutcome.noConfusion h
  · split at h
    · split at h
      · exact PostOutcome.noConfusion h
      · injection h with h1 h2
        rw [← h1, ← h2]
    · injection h with h1 h2
      rw [← h1, ← h2]

/-- C4: on a successful POST, if the candidate's id is already present
the record is replaced at its original index, the length is unchanged
and every other position is untouched; with a fresh id the stored record
is appended at the end of the unchanged collection. -/
theorem C4_upsert (appointments : List Appt) (data stored : Appt) (coll : List Appt)
    (h : postAppointment appointments data = .ok stored coll) :
    (match appointments.findIdx? (fun a => decide (pyGet a.id = pyGet data.id)) with
     | some i => coll = appointments.set i stored ∧ coll.length = appointments.length ∧
         ∀ j : Nat, j ≠ i → coll[j]? = appointments[j]?
     | none => coll = appointments ++ [stored]) := by
  have hs := postAppointment_ok_store h
  split
  · rename_i i hidx
    rw [@storeAppointment_replace appointments (withNormalizedContact data) i hidx] at hs
    injection hs with h1 h2
    refine ⟨?_, ?_, ?_⟩
    · rw [← h2, h1]
    · rw [← h2, List.length_set]
    · intro j hj
      rw [← h2, List.getElem?_set_ne (fun he => hj he.symm)]
  · rename_i hidx
    rw [@storeAppointment_append appointments (withNormalizedContact data) hidx] at hs
    injection hs with h1 h2
    rw [← h2, h1]

theorem C4_upsert_witness :
    (match ([] : List Appt).findIdx?
        (fun a => decide (pyGet a.id = pyGet unrecognizedStatusReq.id)) with
     | some i => [unrecStored] = ([] : List Appt).set i unrecStored ∧
         ([unrecStored] : List Appt).length = ([] : List Appt).length ∧
         ∀ j : Nat, j ≠ i → ([unrecStored] : List Appt)[j]? = ([] : List Appt)[j]?
     | none => [unrecStored] = ([] : List Appt) ++ [unrecStored]) :=
  C4_upsert [] unrecognizedStatusReq unrecStored [unrecStored] (by decide)

/-- C2 counterexample: a successful booking whose incoming status is the
unrecognized string `"tal vez"` stores that status verbatim, so the
stored status is not one of the three enumerated values and no
`pending` substitution happens. -/
theorem C2_status_enum_counterexample :
    postIsOk (postAppointment [] unrecognizedStatusReq) = true ∧
    storedStatusEnum (postAppointment [] unrecognizedStatusReq) = false := by
  decide

/-- C2 amended: a successful booking stores the incoming status
verbatim, except that on the append path an absent status key is
defaulted to `"pendiente"`; the replace path performs no defaulting and
no path normalizes an unrecognized status. -/
theorem C2_status_amended (appointments : List Appt) (data stored : Appt) (coll : List Appt)
    (h : postAppointment appointments data = .ok stored coll) :
    stored.status =
      (match appointments.findIdx? (fun a => decide (pyGet a.id = pyGet data.id)) with
       | some _ => data.status
       | none => if data.status = none then some (JVal.s "pendiente") else data.status) := by
  have hs := postAppointment_ok_store h
  split
  · rename_i i hidx
    rw [@storeAppointment_replace appointments (withNormalizedContact data) i hidx] at hs
    injection hs with h1 _
    rw [← h1, withNormalizedContact_status]
  · rename_i hidx
    rw [@storeAppointment_append appointments (withNormalizedContact data) hidx] at hs
    injection hs with h1 _
    rw [← h1]
    by_cases hst : data.status = none
    · rw [if_pos hst]
      unfold statusDefaulted
      rw [if_pos (by rw [withNormalizedContact_status]; exact hst)]
    · rw [if_neg hst]
      unfold statusDefaulted
      rw [if_neg (by rw [withNormalizedContact_status]; exact hst)]
      exact withNormalizedContact_status data

theorem C2_status_amended_witness :
    unrecStored.status =
      (match ([] : List Appt).findIdx?
          (fun a => decide (pyGet a.id = pyGet unrecognizedStatusReq.id)) with
       | some _ => unrecognizedStatusReq.status
       | none =>
         if unrecognizedStatusReq.status = none then some (JVal.s "pendiente")
         else unrecognizedStatusReq.status) :=
  C2_status_amended [] unrecognizedStatusReq unrecStored [unrecStored] (by decide)

/-- C10 counterexample: for a request whose `dateISO` is the empty
string (unparsable) but whose legacy `date` field names a full slot, the
capacity check is not skipped: the POST fails with the slot-full error
instead of storing the record. -/
theorem C10_capacity_skip_counterexample :
    parse_date_only legacyDateReq.dateISO = none ∧
    postAppointment [slotRecA, slotRecB] legacyDateReq = .slotFull := by
  decide

/-- C10 amended: for a request passing required-field validation, when
the effective date string (`dateISO`, falling back to the legacy `date`
field when `dateISO` is falsy) does not parse, or the time value is
falsy, the capacity check is skipped: the POST succeeds and the record
is appended or replaces its identifier match regardless of slot
occupancy. -/
theorem C10_capacity_skip_amended (appointments : List Appt) (data : Appt)
    (h1 : requiredOk data = true)
    (h2 : parse_date_only (effectiveDateStr data.dateISO data.date) = none ∨
          truthy data.time = false) :
    ∃ stored coll, postAppointment appointments data = .ok stored coll ∧
      (match appointments.findIdx? (fun a => decide (pyGet a.id = pyGet data.id)) with
       | some i => coll = appointments.set i stored
       | none => coll = appointments ++ [stored]) := by
  have hok : postAppointment appointments data =
      .ok (storeAppointment appointments (withNormalizedContact data)).1
         (storeAppointment appointments (withNormalizedContact data)).2 := by
    unfold postAppointment
    rw [if_neg (by simp [h1])]
    simp only [withNormalizedContact_dateISO, withNormalizedContact_date,
      withNormalizedContact_time]
    rcases h2 with h2 | h2
    · rw [h2]
    · cases hp : parse_date_only (effectiveDateStr data.dateISO data.date) with
      | none => rfl
      | some nd =>
        exact if_neg (fun hc => by rw [h2] at hc; exact Bool.noConfusion hc.1)
  refine ⟨_, _, hok, ?_⟩
  split
  · rename_i i hidx
    rw [@storeAppointment_replace appointments (withNormalizedContact data) i hidx]
  · rename_i hidx
    rw [@storeAppointment_append appointments (withNormalizedContact data) hidx]

/-- Cleanup with a present, non-empty cutoff string reduces to the parse
of that string. -/
theorem cleanup_some (appts : List Appt) (b : String) (hb : b ≠ "") :
    cleanup_appointments appts (some b) =
      (match fromisoformat_dt b with
       | none => CleanupOutcome.badDate
       | some limit =>
         CleanupOutcome.ok (appts.filter (cleanupRemoves limit)).length
           (appts.filter (fun a => !cleanupRemoves limit a)).length
           (appts.filter (fun a => !cleanupRemoves limit a))) := by
  unfold cleanup_appointments
  exact if_neg hb

/-- C6: cleanup with a parsable cutoff removes exactly the records whose
parsed date is strictly earlier than the cutoff (a record dated exactly
on the cutoff is kept, and every record whose date cannot be parsed is
kept), returns the removed and kept counts; with a missing or unparsable
cutoff it fails with a validation error and the collection is unchanged.
Concretely, with cutoff 2025-11-01 a record dated 2025-10-15 is removed
while records dated 2025-11-01 or unparsably are kept. -/
theorem C6_cleanup :
    (∀ appts : List Appt,
       cleanup_appointments appts none = .missingBefore ∧
       cleanup_appointments appts (some "") = .missingBefore ∧
       cleanupCollection appts none = appts ∧
       cleanupCollection appts (some "") = appts) ∧
    (∀ (appts : List Appt) (b : String), b ≠ "" → fromisoformat_dt b = none →
       cleanup_appointments appts (some b) = .badDate ∧
       cleanupCollection appts (some b) = appts) ∧
    (∀ (appts : List Appt) (b : String) (limit : SimpleDate), b ≠ "" →
       fromisoformat_dt b = some limit →
       cleanup_appointments appts (some b) =
         .ok (appts.countP (cleanupRemoves limit))
            (appts.countP (fun a => !cleanupRemoves limit a))
            (appts.filter (fun a => !cleanupRemoves limit a))) ∧
    cleanup_appointments [oldRec, onCutoffRec, badDateRec] (some "2025-11-01") =
      .ok 1 2 [onCutoffRec, badDateRec] := by
  refine ⟨fun appts => ⟨rfl, rfl, rfl, rfl⟩, ?_, ?_, by decide⟩
  · intro appts b hb hparse
    constructor
    · rw [cleanup_some appts b hb, hparse]
    · unfold cleanupCollection
      rw [cleanup_some appts b hb, hparse]
  · intro appts b limit hb hparse
    rw [cleanup_some appts b hb, hparse, List.countP_eq_length_filter,
      List.countP_eq_length_filter]

theorem C6_cleanup_witness :
    cleanup_appointments [oldRec] (some "banana") = .badDate ∧
    cleanupCollection [oldRec] (some "banana") = [oldRec] :=
  C6_cleanup.2.1 [oldRec] "banana" (by decide) (by decide)

/-- C5 counterexample: with one same-date record and one off-date record
the response's `total` is 2, the size of the whole stored collection,
not the number of date-matching records (which is 1). -/
theorem C5_total_counterexample :
    remTotal (whatsapp_reminders (fun _ _ => false) ⟨2025, 1, 1⟩ [slotRecA, offDayRec]
        (some "2025-12-04") false) = some 2 ∧
    List.countP (remDateMatch ⟨2025, 12, 4⟩) [slotRecA, offDayRec] = 1 ∧
    remTotal (whatsapp_reminders (fun _ _ => false) ⟨2025, 1, 1⟩ [slotRecA, offDayRec]
        (some "2025-12-04") false) ≠
      some (List.countP (remDateMatch ⟨2025, 12, 4⟩) [slotRecA, offDayRec]) := by
  decide

/-- C5 amended: the reminder response's `total` field reports the length
of the whole stored collection, not only the date-matching records. -/
theorem C5_total_amended (oracle : String → String → Bool) (today : SimpleDate)
    (appointments : List Appt) (date_str : Option String) (only_confirmed : Bool)
    (r : RemResult) (sends : List (String × String))
    (h : whatsapp_reminders oracle today appointments date_str only_confirmed = .ok r sends) :
    r.total = appointments.length := by
  have hresp : ∀ target, remRespond oracle target only_confirmed appointments = .ok r sends →
      r.total = appointments.length := by
    intro target hr
    unfold remRespond at hr
    injection hr with h1 _
    rw [← h1]
  unfold whatsapp_reminders at h
  split at h
  · split at h
    · split at h
      · exact RemOutcome.noConfusion h
      · exact hresp _ h
    · exact hresp _ h
  · exact hresp _ h

theorem C5_total_amended_witness :
    (⟨⟨2025, 12, 4⟩, 0, 1, 0, 2⟩ : RemResult).total = [slotRecA, offDayRec].length :=
  C5_total_amended (fun _ _ => false) ⟨2025, 1, 1⟩ [slotRecA, offDayRec]
    (some "2025-12-04") false ⟨⟨2025, 12, 4⟩, 0, 1, 0, 2⟩ [] (by decide)

/-- The outcome of one dispatch iteration, expressed through the
spec-side predicates. -/
theorem reminderStep_fields (oracle : String → String → Bool) (target : SimpleDate)
    (oc : Bool) (st : RemState) (a : Appt) :
    (reminderStep oracle target oc st a).skipped_status =
      st.skipped_status + (if remDateMatch target a && remStatusSkipped oc a then 1 else 0) ∧
    (reminderStep oracle target oc st a).skipped_no_phone =
      st.skipped_no_phone +
        (if remDateMatch target a && !remStatusSkipped oc a && remPhoneMissing a then 1 else 0) ∧
    (reminderStep oracle target oc st a).sends =
      st.sends ++ (if remAttempted target oc a then
        [((resolvePhone a).getD "", reminderMessage a)] else []) := by
  by_cases h1 : parse_date_only (effectiveDateStr a.dateISO a.date) = some target
  · have hdm : remDateMatch target a = true := by simp [remDateMatch, h1]
    by_cases h2 : statusOrPendiente a = JVal.s "cancelado"
    · have hss : remStatusSkipped oc a = true := by simp [remStatusSkipped, h2]
      have hstep : reminderStep oracle target oc st a =
          { st with skipped_status := st.skipped_status + 1 } := by
        unfold reminderStep
        rw [if_neg (fun hc => hc h1), if_pos h2]
      rw [hstep, hdm, hss]
      simp [remAttempted, hdm, hss]
    · by_cases h3 : oc = true ∧ statusOrPendiente a ≠ JVal.s "confirmado"
      · have hss : remStatusSkipped oc a = true := by
          unfold remStatusSkipped
          rw [h3.1]
          simp [h3.2]
        have hstep : reminderStep oracle target oc st a =
            { st with skipped_status := st.skipped_status + 1 } := by
          unfold reminderStep
          rw [if_neg (fun hc => hc h1), if_neg h2, if_pos h3]
        rw [hstep, hdm, hss]
        simp [remAttempted, hdm, hss]
      · have hss : remStatusSkipped oc a = false := by
          unfold remStatusSkipped
          rw [decide_eq_false h2, Bool.false_or]
          by_cases hoc : oc = true
          · rw [hoc, Bool.true_and, decide_eq_false]
            intro hne
            exact h3 ⟨hoc, hne⟩
          · rw [Bool.not_eq_true] at hoc
            rw [hoc, Bool.false_and]
        by_cases h4 : truthyStrOpt (resolvePhone a) = false
        · have hpm : remPhoneMissing a = true := by simp [remPhoneMissing, h4]
          have hstep : reminderStep oracle target oc st a =
              { st with skipped_no_phone := st.skipped_no_phone + 1 } := by
            unfold reminderStep
            rw [if_neg (fun hc => hc h1), if_neg h2, if_neg h3, if_pos h4]
          rw [hstep, hdm, hss, hpm]
          simp [remAttempted, hdm, hss, hpm]
        · have hpm : remPhoneMissing a = false := by
            have ht : truthyStrOpt (resolvePhone a) = true := by
              revert h4
              cases truthyStrOpt (resolvePhone a) <;> simp
            simp [remPhoneMissing, ht]
          have hat : remAttempted target oc a = true := by
            simp [remAttempted, hdm, hss, hpm]
          have hstep : (reminderStep oracle target oc st a).skipped_status =
                st.skipped_status ∧
              (reminderStep oracle target oc st a).skipped_no_phone =
                st.skipped_no_phone ∧
              (reminderStep oracle target oc st a).sends =
                st.sends ++ [((resolvePhone a).getD "", reminderMessage a)] := by
            unfold reminderStep
            rw [if_neg (fun hc => hc h1), if_neg h2, if_neg h3, if_neg h4]
            by_cases h5 : oracle ((resolvePhone a).getD "") (reminderMessage a) = true
            · rw [if_pos h5]
              exact ⟨rfl, rfl, rfl⟩
            · rw [if_neg h5]
              exact ⟨rfl, rfl, rfl⟩
          rw [hstep.1, hstep.2.1, hstep.2.2, hdm, hss, hpm, hat]
          simp
  · have hdm : remDateMatch target a = false := by simp [remDateMatch, h1]
    have hstep : reminderStep oracle target oc st a = st := by
      unfold reminderStep
      rw [if_pos h1]
    rw [hstep, hdm]
    simp [remAttempted, hdm]

/-- The dispatch loop from an arbitrary starting state: each tally grows
by the count of the records satisfying the corresponding predicate, and
the send list is extended by the attempted records in order. -/
theorem reminderFold_spec (oracle : String → String → Bool) (target : SimpleDate)
    (oc : Bool) :
    ∀ (l : List Appt) (st : RemState),
      (l.foldl (reminderStep oracle target oc) st).skipped_status =
        st.skipped_status + l.countP (fun a => remDateMatch target a && remStatusSkipped oc a) ∧
      (l.foldl (reminderStep oracle target oc) st).skipped_no_phone =
        st.skipped_no_phone +
          l.countP (fun a => remDateMatch target a && !remStatusSkipped oc a &&
            remPhoneMissing a) ∧
      (l.foldl (reminderStep oracle target oc) st).sends =
        st.sends ++ (l.filter (remAttempted target oc)).map
          (fun a => ((resolvePhone a).getD "", reminderMessage a))
  | [], st => by simp
  | a :: l, st => by
    obtain ⟨ih1, ih2, ih3⟩ :=
      reminderFold_spec oracle target oc l (reminderStep oracle target oc st a)
    obtain ⟨hf1, hf2, hf3⟩ := reminderStep_fields oracle target oc st a
    rw [List.foldl_cons]
    refine ⟨?_, ?_, ?_⟩
    · rw [ih1, hf1, List.countP_cons]
      by_cases hp : (remDateMatch target a && remStatusSkipped oc a) = true
      · simp only [hp, if_true]
        omega
      · simp only [hp, if_false]
        omega
    · rw [ih2, hf2, List.countP_cons]
      by_cases hp : (remDateMatch target a && !remStatusSkipped oc a &&
          remPhoneMissing a) = true
      · simp only [hp, if_true]
        omega
      · simp only [hp, if_false]
        omega
    · rw [ih3, hf3, List.filter_cons]
      by_cases hp : remAttempted target oc a = true
      · simp [hp]
      · simp [hp]

/-- C7: in reminder dispatch, the skipped-by-status tally counts exactly
the date-matching records that are cancelled or, when only_confirmed is
set, not confirmed; the skipped-no-phone tally counts exactly the
date-matching, not status-skipped records whose phone (stored
`clientContactNormalized`, else recomputed from the raw contact)
resolves to nothing; and the attempted sends are exactly the remaining
date-matching records, in order — so records whose date does not match
or cannot be parsed appear in no tally, and skipped records are never
sent. -/
theorem C7_reminder_tallies (oracle : String → String → Bool) (target : SimpleDate)
    (only_confirmed : Bool) (appointments : List Appt) :
    (runReminders oracle target only_confirmed appointments).skipped_status =
      appointments.countP
        (fun a => remDateMatch target a && remStatusSkipped only_confirmed a) ∧
    (runReminders oracle target only_confirmed appointments).skipped_no_phone =
      appointments.countP (fun a => remDateMatch target a &&
        !remStatusSkipped only_confirmed a && remPhoneMissing a) ∧
    (runReminders oracle target only_confirmed appointments).sends =
      (appointments.filter (remAttempted target only_confirmed)).map
        (fun a => ((resolvePhone a).getD "", reminderMessage a)) := by
  obtain ⟨h1, h2, h3⟩ :=
    reminderFold_spec oracle target only_confirmed appointments ⟨0, 0, 0, []⟩
  exact ⟨by simpa [runReminders] using h1, by simpa [runReminders] using h2,
    by simpa [runReminders] using h3⟩

theorem C7_reminder_tallies_witness :
    (runReminders (fun _ _ => false) ⟨2025, 12, 4⟩ false
        [slotRecA, slotRecACancelled, offDayRec]).skipped_status =
      List.countP
        (fun a => remDateMatch ⟨2025, 12, 4⟩ a && remStatusSkipped false a)
        [slotRecA, slotRecACancelled, offDayRec] :=
  (C7_reminder_tallies (fun _ _ => false) ⟨2025, 12, 4⟩ false
    [slotRecA, slotRecACancelled, offDayRec]).1

theorem C10_capacity_skip_amended_witness :
    ∃ stored coll, postAppointment [slotRecA, slotRecB] unparsableDateReq = .ok stored coll ∧
      (match [slotRecA, slotRecB].findIdx?
          (fun a => decide (pyGet a.id = pyGet unparsableDateReq.id)) with
       | some i => coll = [slotRecA, slotRecB].set i stored
       | none => coll = [slotRecA, slotRecB] ++ [stored]) :=
  C10_capacity_skip_amended [slotRecA, slotRecB] unparsableDateReq (by decide)
    (Or.inl (by decide))

end Danilo
